import Mathlib

/-!
Shallow embedding of the nanobot agent loop (src/nanobot/agent/loop.py) and
of the long-term memory store (src/nanobot/agent/memory.py), restricted to
the state the verified claims depend on: session history, the two session
metadata keys used by the memory-confirmation state machine, the long-term
memory file, the number of model-backend chat invocations performed during
one turn, and the outbound reply.

The model backend (LLMProvider.chat) is abstracted as an oracle mapping the
zero-based index of the chat call within the turn to the response returned
by that call.  Tool execution and the transient per-turn message list are
built by external collaborators (ToolRegistry and ContextBuilder, whose
sources are not part of the repository snapshot); their outputs feed only
the model backend, so any dependence of later responses on tool results is
absorbed by the generality of the oracle.  Neither touches the Session, the
long-term memory file, or the returned OutboundMessage.
-/

namespace Nanobot

/-- ASCII whitespace characters stripped by Python str.strip.  The model of
str.strip is restricted to ASCII whitespace; every string the claims touch
is ASCII-or-Cyrillic text without exotic Unicode whitespace. -/
def isPyWhitespace (c : Char) : Bool :=
  c = ' ' || c = '\t' || c = '\n' || c = '\r' || c = '\x0b' || c = '\x0c'

/-- List-level strip: drop leading and trailing whitespace characters. -/
def stripList (l : List Char) : List Char :=
  ((l.dropWhile isPyWhitespace).reverse.dropWhile isPyWhitespace).reverse

/-- Python str.strip. -/
def pyStrip (s : String) : String := ⟨stripList s.data⟩

/-- Python str.lower restricted to ASCII letters and the Russian alphabet,
which covers every character of the trigger vocabulary of the
memory-confirmation state machine in loop.py. -/
def pyLowerChar (c : Char) : Char :=
  if 'A' ≤ c && c ≤ 'Z' then Char.ofNat (c.toNat + 32)
  else if 'А' ≤ c && c ≤ 'Я' then Char.ofNat (c.toNat + 32)
  else if c = 'Ё' then 'ё'
  else c

/-- Python str.lower on a whole string. -/
def pyLower (s : String) : String := ⟨s.data.map pyLowerChar⟩

/-- Computation performed by loop.py on the inbound content before matching
the trigger vocabulary: normalized = (msg.content or "").strip().lower(). -/
def normalizedText (content : String) : String := pyLower (pyStrip content)

/-- One tool call requested by the model; arguments are kept in their
serialized textual form, which is all the claims need. -/
structure ToolCall where
  id : String
  name : String
  arguments : String
deriving DecidableEq

/-- Response of the model backend: optional text content plus the requested
tool calls.  has_tool_calls in the source is truthiness of the list. -/
structure LLMResponse where
  content : Option String
  tool_calls : List ToolCall
deriving DecidableEq

/-- One persisted history entry of a Session: a role and a content string. -/
structure HistMsg where
  role : String
  content : String
deriving DecidableEq

/-- Session state touched by the agent loop: the ordered history plus the
two metadata keys ("awaiting_memory_confirm" and "memory_draft") that the
memory-confirmation state machine reads and writes.  A key absent from the
metadata map is modelled as none. -/
structure Session where
  messages : List HistMsg
  awaiting_memory_confirm : Option Bool
  memory_draft : Option String
deriving DecidableEq

/-- Inbound message as consumed by AgentLoop._process_message. -/
structure InboundMessage where
  channel : String
  sender_id : String
  chat_id : String
  content : String
deriving DecidableEq

/-- Outbound reply produced by the agent loop. -/
structure OutboundMessage where
  channel : String
  chat_id : String
  content : String
deriving DecidableEq

/-- Truthiness test bool(session.metadata.get("awaiting_memory_confirm"));
the source only ever stores the value True under this key. -/
def awaitingFlag (sess : Session) : Bool :=
  sess.awaiting_memory_confirm.getD false

/-- Trigger vocabulary of the state machine, exactly as in loop.py. -/
def is_save_memory (n : String) : Bool :=
  n == "сохранить в памяти" || n == "save to memory"

/-- Cancel trigger vocabulary. -/
def is_cancel_memory (n : String) : Bool :=
  n == "отмена" || n == "cancel"

/-- Confirm trigger vocabulary. -/
def is_confirm_save (n : String) : Bool :=
  n == "сохранить" || n == "save"

/-- Template written by MemoryStore.ensure_long_term_exists when the
long-term memory file is absent (memory.py). -/
def longTermTemplate : String :=
  "# Long-term Memory\n\nThis file stores important information that should persist across sessions.\n\n## User Information\n\n(Important facts about the user)\n\n## Preferences\n\n(User preferences learned over time)\n\n## Project Context\n\n(Information about ongoing projects)\n\n## Important Notes\n\n(Things to remember)\n\n---\n\n*This file is automatically updated by nanobot when important information\nshould be remembered.*\n"

/-- Content of the long-term memory file after ensure_long_term_exists:
the existing content if the file exists, the template otherwise. -/
def ensureLongTerm (mem : Option String) : String :=
  mem.getD longTermTemplate

/-- MemoryStore.append_long_term from memory.py, acting on the content of
memory/MEMORY.md modelled as an optional string (none = file absent). -/
def append_long_term (mem : Option String) (content : String) : Option String :=
  let entry := pyStrip content
  if entry = "" then mem
  else some (ensureLongTerm mem ++ "\n\n---\n\n" ++ entry ++ "\n")

/-- Iterative tool-calling loop of loop.py, shared by _process_message and
_process_system_message:

  while iteration < max_iterations: iteration += 1; response = chat(...);
  if tool calls: execute tools, continue; else: final = content; break

translated with k = number of iterations already performed and
rem = max_iterations - k as the structural fuel.  The result is the total
number of chat invocations made together with the final_content value
(none when the loop exhausted its iterations, or when a response without
tool calls carried no content). -/
def runIter (p : Nat → LLMResponse) (k : Nat) : Nat → Nat × Option String
  | 0 => (k, none)
  | rem + 1 =>
    let r := p k
    if r.tool_calls.isEmpty then (k + 1, r.content)
    else runIter p (k + 1) rem

/-- Fallback text substituted in _process_message when final_content is
None after the loop. -/
def agentFallbackText : String :=
  "I\x27ve completed processing but have no response to give."

/-- Fallback text substituted in _process_system_message. -/
def systemFallbackText : String := "Background task completed."

/-- Reply text of the cancel transition. -/
def cancelReplyText : String := "Ок, отменил сохранение. Черновик сброшен."

/-- Reply text of the confirm transition when no draft is stored. -/
def noDraftReplyText : String :=
  "Черновик не найден. Нажми «Сохранить в памяти» ещё раз, чтобы сформировать новый черновик."

/-- Reply text of the successful confirm transition. -/
def savedReplyText : String :=
  "Сохранено в долгосрочную память (memory/MEMORY.md)."

/-- Reply text echoing an edited draft. -/
def editedReplyText (edited : String) : String :=
  "Обновил черновик.\n\n" ++ edited ++
    "\n\nТеперь напиши «сохранить», нажми\n«Сохранить в памяти» ещё раз, или нажми «Отмена»."

/-- Reply text when the session history holds nothing to save. -/
def nothingToSaveText : String :=
  "Пока нечего сохранять: история диалога пуста."

/-- Placeholder draft stored when the model returned an empty summary. -/
def emptyDraftText : String :=
  "(Не удалось сгенерировать черновик резюме.)"

/-- Reply text presenting a fresh draft. -/
def draftReplyText (draft : String) : String :=
  "Черновик резюме для памяти:\n\n" ++ draft ++
    "\n\nОтправь правки текстом, или напиши «сохранить», или нажми «Сохранить в памяти» ещё раз. Чтобы отменить — нажми «Отмена»."

/-- Transcript lines built by the save path of _process_message: one line
per history entry with non-empty stripped content, prefixed by a role
label. -/
def transcriptLines : List HistMsg → List String
  | [] => []
  | m :: rest =>
    let content := pyStrip m.content
    if content = "" then transcriptLines rest
    else
      (if m.role = "user" then "Пользователь: " ++ content
       else if m.role = "assistant" then "Ассистент: " ++ content
       else m.role ++ ": " ++ content) :: transcriptLines rest

/-- Result of one turn of the per-session processor: session state after
the turn, long-term memory file after the turn, number of model-backend
chat invocations made, and the returned outbound message. -/
structure TurnResult where
  session : Session
  memory : Option String
  chats : Nat
  out : Option OutboundMessage
deriving DecidableEq

/-- AgentLoop._process_message from loop.py for a non-system message, acting
on the session fetched for msg.session_key.  The branch structure follows
the source: the four early-return paths of the memory-confirmation state
machine, then the tool-calling loop.  The third branch carries the extra
conjunct edited != "" because in the source an empty edited draft falls
through to the subsequent checks instead of returning. -/
def process_message (maxIter : Nat) (provider : Nat → LLMResponse)
    (sess : Session) (mem : Option String) (msg : InboundMessage) :
    TurnResult :=
  let normalized := normalizedText msg.content
  let awaiting := awaitingFlag sess
  let edited := pyStrip msg.content
  if awaiting && is_cancel_memory normalized then
    { session := { sess with awaiting_memory_confirm := none, memory_draft := none },
      memory := mem, chats := 0,
      out := some ⟨msg.channel, msg.chat_id, cancelReplyText⟩ }
  else if awaiting && (is_confirm_save normalized || is_save_memory normalized) then
    let draft := pyStrip (sess.memory_draft.getD "")
    if draft = "" then
      { session := { sess with awaiting_memory_confirm := none },
        memory := mem, chats := 0,
        out := some ⟨msg.channel, msg.chat_id, noDraftReplyText⟩ }
    else
      { session := { sess with awaiting_memory_confirm := none, memory_draft := none },
        memory := append_long_term mem draft, chats := 0,
        out := some ⟨msg.channel, msg.chat_id, savedReplyText⟩ }
  else if awaiting &&
      !(is_confirm_save normalized || is_save_memory normalized ||
        is_cancel_memory normalized) && !(edited == "") then
    { session := { sess with memory_draft := some edited },
      memory := mem, chats := 0,
      out := some ⟨msg.channel, msg.chat_id, editedReplyText edited⟩ }
  else if is_save_memory normalized && !awaiting then
    let transcript := String.intercalate "\n" (transcriptLines sess.messages)
    if pyStrip transcript = "" then
      { session := sess, memory := mem, chats := 0,
        out := some ⟨msg.channel, msg.chat_id, nothingToSaveText⟩ }
    else
      let draft0 := pyStrip ((provider 0).content.getD "")
      let draft := if draft0 = "" then emptyDraftText else draft0
      { session := { sess with awaiting_memory_confirm := some true,
                               memory_draft := some draft },
        memory := mem, chats := 1,
        out := some ⟨msg.channel, msg.chat_id, draftReplyText draft⟩ }
  else
    let r := runIter provider 0 maxIter
    let final := r.2.getD agentFallbackText
    { session := { sess with messages := sess.messages ++
        [⟨"user", msg.content⟩, ⟨"assistant", final⟩] },
      memory := mem, chats := r.1,
      out := some ⟨msg.channel, msg.chat_id, final⟩ }

/-- First-colon split of a character list: some (before, after) when a colon
occurs, none otherwise.  Models chat_id.split(":", 1) guarded by
":" in chat_id. -/
def splitFirstColon : List Char → Option (List Char × List Char)
  | [] => none
  | c :: cs =>
    if c = ':' then some ([], cs)
    else
      match splitFirstColon cs with
      | some (a, b) => some (c :: a, b)
      | none => none

/-- Origin resolution of _process_system_message: split chat_id on the first
colon into (origin_channel, origin_chat_id), falling back to the cli
channel with the whole chat_id when no colon is present. -/
def parseOrigin (chat_id : String) : String × String :=
  match splitFirstColon chat_id.data with
  | some (a, b) => (⟨a⟩, ⟨b⟩)
  | none => ("cli", chat_id)

/-- Session key used by _process_system_message: origin_channel joined to
origin_chat_id by a colon. -/
def originKey (msg : InboundMessage) : String :=
  (parseOrigin msg.chat_id).1 ++ ":" ++ (parseOrigin msg.chat_id).2

/-- Per-session part of AgentLoop._process_system_message: the tool-calling
loop followed by the history commit and the reply addressed to the resolved
origin.  This path has no memory-confirmation interception and never
touches metadata or the long-term memory file. -/
def process_system_session (maxIter : Nat) (provider : Nat → LLMResponse)
    (sess : Session) (mem : Option String) (msg : InboundMessage) :
    TurnResult :=
  let origin := parseOrigin msg.chat_id
  let r := runIter provider 0 maxIter
  let final := r.2.getD systemFallbackText
  { session := { sess with messages := sess.messages ++
      [⟨"user", "[System: " ++ msg.sender_id ++ "] " ++ msg.content⟩,
       ⟨"assistant", final⟩] },
    memory := mem, chats := r.1,
    out := some ⟨origin.1, origin.2, final⟩ }

/-- Result of dispatching one inbound message against the whole session
store (session key → session). -/
structure DispatchResult where
  store : String → Session
  memory : Option String
  chats : Nat
  out : Option OutboundMessage

/-- AgentLoop._process_system_message at the store level: the session used
for history lookup and commit is the one keyed by the resolved origin
address. -/
def process_system_message (maxIter : Nat) (provider : Nat → LLMResponse)
    (store : String → Session) (mem : Option String) (msg : InboundMessage) :
    DispatchResult :=
  let key := originKey msg
  let r := process_system_session maxIter provider (store key) mem msg
  { store := fun k => if k = key then r.session else store k,
    memory := r.memory, chats := r.chats, out := r.out }

/-- Modelled from the spec: InboundMessage.session_key (class defined in
nanobot/bus/events.py, absent from the snapshot) is the SessionKey derived
deterministically from channel and chat identity; process_direct in loop.py
pairs channel "cli" and chat_id "direct" with session key "cli:direct". -/
def sessionKeyOf (msg : InboundMessage) : String :=
  msg.channel ++ ":" ++ msg.chat_id

/-- Top of AgentLoop._process_message: dispatch on the reserved system
channel, then run the matching turn processor against the store. -/
def process_inbound (maxIter : Nat) (provider : Nat → LLMResponse)
    (store : String → Session) (mem : Option String) (msg : InboundMessage) :
    DispatchResult :=
  if msg.channel = "system" then
    process_system_message maxIter provider store mem msg
  else
    let key := sessionKeyOf msg
    let r := process_message maxIter provider (store key) mem msg
    { store := fun k => if k = key then r.session else store k,
      memory := r.memory, chats := r.chats, out := r.out }

/-! Lemmas about the iteration loop. -/

theorem runIter_fst_le (p : Nat → LLMResponse) :
    ∀ rem k, (runIter p k rem).1 ≤ k + rem := by
  intro rem
  induction rem with
  | zero => intro k; simp [runIter]
  | succ n ih =>
    intro k
    simp only [runIter]
    by_cases h : (p k).tool_calls.isEmpty
    · simp [h]
    · simp [h]
      have := ih (k + 1)
      omega

theorem runIter_fst_ge (p : Nat → LLMResponse) :
    ∀ rem k, k ≤ (runIter p k rem).1 := by
  intro rem
  induction rem with
  | zero => intro k; simp [runIter]
  | succ n ih =>
    intro k
    simp only [runIter]
    by_cases h : (p k).tool_calls.isEmpty
    · simp [h]
    · simp [h]
      have := ih (k + 1)
      omega

theorem runIter_fst_pos (p : Nat → LLMResponse) (rem k : Nat) :
    k + 1 ≤ (runIter p k (rem + 1)).1 := by
  simp only [runIter]
  by_cases h : (p k).tool_calls.isEmpty
  · simp [h]
  · simp [h]
    exact runIter_fst_ge p rem (k + 1)

theorem runIter_all_tools (p : Nat → LLMResponse) :
    ∀ rem k, (∀ i, i < k + rem → (p i).tool_calls.isEmpty = false) →
    runIter p k rem = (k + rem, none) := by
  intro rem
  induction rem with
  | zero => intro k _; simp [runIter]
  | succ n ih =>
    intro k h
    have hk : (p k).tool_calls.isEmpty = false := h k (by omega)
    simp only [runIter, hk]
    simp only [Bool.false_eq_true, if_false]
    rw [ih (k + 1) (fun i hi => h i (by omega))]
    congr 1
    omega

/-! Lemmas about stripping and the first-colon split. -/

theorem dropWhile_head_not (p : Char → Bool) :
    ∀ l a as, List.dropWhile p l = a :: as → p a = false := by
  intro l
  induction l with
  | nil => intro a as h; simp [List.dropWhile] at h
  | cons c t ih =>
    intro a as h
    by_cases hc : p c
    · rw [List.dropWhile_cons_of_pos hc] at h
      exact ih a as h
    · rw [List.dropWhile_cons_of_neg hc] at h
      cases h
      simpa using hc

theorem dropWhile_nil_all (p : Char → Bool) :
    ∀ l, List.dropWhile p l = [] → ∀ c ∈ l, p c = true := by
  intro l
  induction l with
  | nil => intro _ c hc; simp at hc
  | cons a t ih =>
    intro h c hc
    by_cases ha : p a
    · rw [List.dropWhile_cons_of_pos ha] at h
      rcases List.mem_cons.mp hc with rfl | hm
      · exact ha
      · exact ih h c hm
    · rw [List.dropWhile_cons_of_neg ha] at h
      simp at h

theorem takeWhile_mem_true (p : Char → Bool) :
    ∀ l c, c ∈ List.takeWhile p l → p c = true := by
  intro l
  induction l with
  | nil => intro c hc; simp [List.takeWhile] at hc
  | cons a t ih =>
    intro c hc
    by_cases ha : p a
    · rw [List.takeWhile_cons_of_pos ha] at hc
      rcases List.mem_cons.mp hc with rfl | hm
      · exact ha
      · exact ih c hm
    · rw [List.takeWhile_cons_of_neg ha] at hc
      simp at hc

theorem stripList_eq_nil_all (l : List Char) (h : stripList l = []) :
    ∀ c ∈ l, isPyWhitespace c = true := by
  intro c hc
  unfold stripList at h
  have hx : (l.dropWhile isPyWhitespace).reverse.dropWhile isPyWhitespace = [] := by
    have := congrArg List.reverse h
    simpa using this
  have hall : ∀ d ∈ (l.dropWhile isPyWhitespace).reverse, isPyWhitespace d = true :=
    dropWhile_nil_all _ _ hx
  have hall2 : ∀ d ∈ l.dropWhile isPyWhitespace, isPyWhitespace d = true := by
    intro d hd
    exact hall d (List.mem_reverse.mpr hd)
  have hsplit : l.takeWhile isPyWhitespace ++ l.dropWhile isPyWhitespace = l :=
    List.takeWhile_append_dropWhile isPyWhitespace l
  rw [← hsplit] at hc
  rcases List.mem_append.mp hc with hm | hm
  · exact takeWhile_mem_true _ _ _ hm
  · exact hall2 c hm

theorem stripList_ne_nil_witness (l : List Char) (h : stripList l ≠ []) :
    ∃ c ∈ stripList l, isPyWhitespace c = false := by
  rcases hc : (l.dropWhile isPyWhitespace).reverse.dropWhile isPyWhitespace with _ | ⟨a, as⟩
  · exfalso
    apply h
    unfold stripList
    rw [hc]
    rfl
  · refine ⟨a, ?_, dropWhile_head_not _ _ a as hc⟩
    unfold stripList
    rw [hc]
    exact List.mem_reverse.mpr (by simp)

theorem pyStrip_eq_empty_iff (s : String) :
    pyStrip s = "" ↔ stripList s.data = [] := by
  unfold pyStrip
  constructor
  · intro h
    have : (⟨stripList s.data⟩ : String).data = ("" : String).data := by rw [h]
    simpa using this
  · intro h
    rw [h]

theorem pyStrip_ne_empty_of_nonws (s : String)
    (h : ∃ c ∈ s.data, isPyWhitespace c = false) : pyStrip s ≠ "" := by
  intro hemp
  rcases h with ⟨c, hc, hws⟩
  have := stripList_eq_nil_all s.data ((pyStrip_eq_empty_iff s).mp hemp) c hc
  rw [this] at hws
  exact Bool.true_eq_false.mp hws

theorem pyStrip_nonws_witness (s : String) (h : pyStrip s ≠ "") :
    ∃ c ∈ (pyStrip s).data, isPyWhitespace c = false := by
  have hne : stripList s.data ≠ [] := by
    intro hnil
    exact h ((pyStrip_eq_empty_iff s).mpr hnil)
  have := stripList_ne_nil_witness s.data hne
  simpa [pyStrip] using this

theorem splitFirstColon_none :
    ∀ l, splitFirstColon l = none → ':' ∉ l := by
  intro l
  induction l with
  | nil => intro _ h; simp at h
  | cons c cs ih =>
    intro h hmem
    by_cases hc : c = ':'
    · simp [splitFirstColon, hc] at h
    · simp only [splitFirstColon, if_neg hc] at h
      rcases List.mem_cons.mp hmem with rfl | hm
      · exact hc rfl
      · rcases hsp : splitFirstColon cs with _ | ⟨a, b⟩
        · exact ih hsp hm
        · rw [hsp] at h; simp at h

theorem splitFirstColon_some :
    ∀ l a b, splitFirstColon l = some (a, b) → ':' ∉ a ∧ l = a ++ ':' :: b := by
  intro l
  induction l with
  | nil => intro a b h; simp [splitFirstColon] at h
  | cons c cs ih =>
    intro a b h
    by_cases hc : c = ':'
    · simp only [splitFirstColon, if_pos hc] at h
      cases h
      subst hc
      exact ⟨by simp, by simp⟩
    · simp only [splitFirstColon, if_neg hc] at h
      rcases hsp : splitFirstColon cs with _ | ⟨a0, b0⟩
      · rw [hsp] at h; simp at h
      · rw [hsp] at h
        simp only [Option.some.injEq, Prod.mk.injEq] at h
        rcases h with ⟨h1, h2⟩
        rcases ih a0 b0 hsp with ⟨hna, heq⟩
        subst h2
        constructor
        · intro hmem
          rw [← h1] at hmem
          rcases List.mem_cons.mp hmem with heqc | hm
          · exact hc heqc.symm
          · exact hna hm
        · rw [← h1]
          simp [heq]

/-! Lemmas about the trigger vocabulary and the transcript. -/

theorem confirm_or_save_cases (n : String)
    (h : (is_confirm_save n || is_save_memory n) = true) :
    n = "сохранить" ∨ n = "save" ∨ n = "сохранить в памяти" ∨
      n = "save to memory" := by
  simpa [is_confirm_save, is_save_memory, or_assoc] using h

theorem confirm_or_save_not_cancel (n : String)
    (h : (is_confirm_save n || is_save_memory n) = true) :
    is_cancel_memory n = false := by
  rcases confirm_or_save_cases n h with rfl | rfl | rfl | rfl <;> decide

theorem transcriptLines_nil (l : List HistMsg)
    (h : ∀ m ∈ l, pyStrip m.content = "") : transcriptLines l = [] := by
  induction l with
  | nil => rfl
  | cons m rest ih =>
    have hm : pyStrip m.content = "" := h m (by simp)
    simp only [transcriptLines, hm, if_pos rfl]
    exact ih (fun x hx => h x (by simp [hx]))

/-- Shape of process_message when no memory-confirmation branch fires: the
turn runs the tool-calling loop, appends exactly the user input and the
final answer to history, and leaves metadata and memory untouched. -/
theorem process_message_loop_shape (maxIter : Nat) (p : Nat → LLMResponse)
    (sess : Session) (mem : Option String) (msg : InboundMessage)
    (h1 : (awaitingFlag sess && is_cancel_memory (normalizedText msg.content)) = false)
    (h2 : (awaitingFlag sess &&
      (is_confirm_save (normalizedText msg.content) ||
        is_save_memory (normalizedText msg.content))) = false)
    (h3 : (awaitingFlag sess &&
      !(is_confirm_save (normalizedText msg.content) ||
        is_save_memory (normalizedText msg.content) ||
        is_cancel_memory (normalizedText msg.content)) &&
      !(pyStrip msg.content == "")) = false)
    (h4 : (is_save_memory (normalizedText msg.content) && !awaitingFlag sess) = false) :
    process_message maxIter p sess mem msg =
      { session := { sess with messages := sess.messages ++
          [⟨"user", msg.content⟩,
           ⟨"assistant", (runIter p 0 maxIter).2.getD agentFallbackText⟩] },
        memory := mem, chats := (runIter p 0 maxIter).1,
        out := some ⟨msg.channel, msg.chat_id,
          (runIter p 0 maxIter).2.getD agentFallbackText⟩ } := by
  simp only [process_message, h1, h2, h3, h4, Bool.false_eq_true, if_false]

/-- C1, counterexample: a cancel-trigger turn in state DRAFTING returns a
reply but leaves Session history unchanged, so history does not grow by
exactly two entries on every turn. -/
theorem c1_counterexample :
    (process_message 20 (fun _ => ⟨some "x", []⟩)
        ⟨[], some true, some "d"⟩ none
        ⟨"telegram", "u", "1", "отмена"⟩).out =
      some ⟨"telegram", "1", cancelReplyText⟩ ∧
    (process_message 20 (fun _ => ⟨some "x", []⟩)
        ⟨[], some true, some "d"⟩ none
        ⟨"telegram", "u", "1", "отмена"⟩).session.messages.length ≠
      (⟨[], some true, some "d"⟩ : Session).messages.length + 2 := by
  decide

/-- C1, amended: on every turn — user-channel or system-channel — Session
history either stays unchanged (user-channel turns fully handled by the
memory-confirmation pre-check) or grows by exactly two entries, one user
entry holding the turn's input (tagged "[System: sender]" on system-channel
turns) and one assistant entry holding the final answer; no tool-call or
tool-result exchange is ever appended to Session history.  System-channel
turns always grow history by exactly two entries. -/
theorem c1_history_growth (maxIter : Nat) (p : Nat → LLMResponse)
    (sess : Session) (mem : Option String) (msg : InboundMessage) :
    ((process_message maxIter p sess mem msg).session.messages = sess.messages ∨
      ∃ final,
        (process_message maxIter p sess mem msg).session.messages =
          sess.messages ++ [⟨"user", msg.content⟩, ⟨"assistant", final⟩]) ∧
    ∃ final,
      (process_system_session maxIter p sess mem msg).session.messages =
        sess.messages ++
          [⟨"user", "[System: " ++ msg.sender_id ++ "] " ++ msg.content⟩,
           ⟨"assistant", final⟩] := by
  constructor
  · simp only [process_message]
    split_ifs <;>
      first
        | exact Or.inl rfl
        | exact Or.inr ⟨_, rfl⟩
  · exact ⟨_, rfl⟩

/-- C2: during any turn, at most max_iterations model-backend chat
invocations are made (assuming max_iterations is at least 1, which covers
the single summarization call of the draft-building path). -/
theorem c2_chat_calls_bounded (maxIter : Nat) (p : Nat → LLMResponse)
    (store : String → Session) (mem : Option String) (msg : InboundMessage)
    (h : 1 ≤ maxIter) :
    (process_inbound maxIter p store mem msg).chats ≤ maxIter := by
  have hr := runIter_fst_le p maxIter 0
  simp only [process_inbound, process_system_message, process_system_session,
    process_message]
  split_ifs <;> simp <;> omega

/-- C2 witness at a concrete turn. -/
theorem c2_witness :
    (process_inbound 20 (fun _ => ⟨some "x", []⟩)
      (fun _ => ⟨[], none, none⟩) none
      ⟨"telegram", "u", "1", "hi"⟩).chats ≤ 20 :=
  c2_chat_calls_bounded 20 _ _ _ _ (by decide)

/-- C3, counterexample: a turn whose loop runs max_iterations = 2 iterations
with only tool-call responses replies with the fixed fallback of loop.py,
which is not the string "processing incomplete, no answer produced". -/
theorem c3_counterexample :
    (process_message 2 (fun _ => ⟨some "c", [⟨"1", "t", ""⟩]⟩)
        ⟨[], none, none⟩ none ⟨"telegram", "u", "1", "hi"⟩).chats = 2 ∧
    (process_message 2 (fun _ => ⟨some "c", [⟨"1", "t", ""⟩]⟩)
        ⟨[], none, none⟩ none ⟨"telegram", "u", "1", "hi"⟩).out =
      some ⟨"telegram", "1", agentFallbackText⟩ ∧
    agentFallbackText ≠ "processing incomplete, no answer produced" := by
  decide

/-- C3, amended: if the loop runs max_iterations iterations without a
tool-call-free response, the turn still produces a reply, whose content is
the fixed fallback text of the matching path: the no-response fallback of
_process_message for user-channel turns, and the background-task fallback
of _process_system_message for system-channel turns.  The four hypotheses
h1-h4 state exactly that no early-return branch of the
memory-confirmation pre-check fires, i.e. that the turn reaches the
tool-calling loop at all (which includes DRAFTING turns whose input strips
to empty text); the system path reaches the loop unconditionally. -/
theorem c3_fallback_on_exhaustion (maxIter : Nat) (p : Nat → LLMResponse)
    (sess : Session) (mem : Option String) (msg : InboundMessage)
    (h1 : (awaitingFlag sess && is_cancel_memory (normalizedText msg.content)) = false)
    (h2 : (awaitingFlag sess &&
      (is_confirm_save (normalizedText msg.content) ||
        is_save_memory (normalizedText msg.content))) = false)
    (h3 : (awaitingFlag sess &&
      !(is_confirm_save (normalizedText msg.content) ||
        is_save_memory (normalizedText msg.content) ||
        is_cancel_memory (normalizedText msg.content)) &&
      !(pyStrip msg.content == "")) = false)
    (h4 : (is_save_memory (normalizedText msg.content) && !awaitingFlag sess) = false)
    (hT : ∀ i, i < maxIter → (p i).tool_calls.isEmpty = false) :
    (process_message maxIter p sess mem msg).out =
      some ⟨msg.channel, msg.chat_id, agentFallbackText⟩ ∧
    (process_message maxIter p sess mem msg).chats = maxIter ∧
    (process_system_session maxIter p sess mem msg).out =
      some ⟨(parseOrigin msg.chat_id).1, (parseOrigin msg.chat_id).2,
        systemFallbackText⟩ ∧
    (process_system_session maxIter p sess mem msg).chats = maxIter := by
  have hall := runIter_all_tools p maxIter 0 (fun i hi => hT i (by omega))
  rw [process_message_loop_shape maxIter p sess mem msg h1 h2 h3 h4]
  simp [process_system_session, hall]

/-- C3 witness at a concrete exhausted turn, taken in state DRAFTING with a
whitespace-only input so that the turn reaches the loop through the
fall-through path as well. -/
theorem c3_witness :
    (process_message 2 (fun _ => ⟨some "c", [⟨"1", "t", ""⟩]⟩)
        ⟨[], some true, some "d"⟩ none ⟨"cli", "u", "42", " "⟩).out =
      some ⟨"cli", "42", agentFallbackText⟩ ∧
    (process_message 2 (fun _ => ⟨some "c", [⟨"1", "t", ""⟩]⟩)
        ⟨[], some true, some "d"⟩ none ⟨"cli", "u", "42", " "⟩).chats = 2 ∧
    (process_system_session 2 (fun _ => ⟨some "c", [⟨"1", "t", ""⟩]⟩)
        ⟨[], some true, some "d"⟩ none ⟨"cli", "u", "42", " "⟩).out =
      some ⟨(parseOrigin "42").1, (parseOrigin "42").2, systemFallbackText⟩ ∧
    (process_system_session 2 (fun _ => ⟨some "c", [⟨"1", "t", ""⟩]⟩)
        ⟨[], some true, some "d"⟩ none ⟨"cli", "u", "42", " "⟩).chats = 2 :=
  c3_fallback_on_exhaustion 2 _ _ _ _ (by decide) (by decide) (by decide)
    (by decide) (by decide)

/-- C4: origin resolution of system messages splits the chat identifier on
the first colon only (the channel part is colon-free and channel, colon and
remainder reassemble the identifier), falls back to the cli channel with
the unchanged identifier when no colon is present, and resolves
"telegram:42" to channel "telegram" with chat id "42". -/
theorem c4_origin_resolution :
    parseOrigin "telegram:42" = ("telegram", "42") ∧
    (∀ s : String, ':' ∉ s.data → parseOrigin s = ("cli", s)) ∧
    (∀ s : String, ':' ∈ s.data →
      ':' ∉ (parseOrigin s).1.data ∧
      (parseOrigin s).1.data ++ ':' :: (parseOrigin s).2.data = s.data) := by
  refine ⟨by decide, ?_, ?_⟩
  · intro s h
    unfold parseOrigin
    rcases hsp : splitFirstColon s.data with _ | ⟨a, b⟩
    · rfl
    · exfalso
      rcases splitFirstColon_some s.data a b hsp with ⟨_, heq⟩
      apply h
      rw [heq]
      simp
  · intro s h
    unfold parseOrigin
    rcases hsp : splitFirstColon s.data with _ | ⟨a, b⟩
    · exact absurd h (splitFirstColon_none s.data hsp)
    · rcases splitFirstColon_some s.data a b hsp with ⟨hna, heq⟩
      exact ⟨hna, heq.symm⟩

/-- C4 witness at concrete identifiers with no colon and with two colons. -/
theorem c4_witness :
    parseOrigin "plain" = ("cli", "plain") ∧
    (':' ∉ (parseOrigin "a:b:c").1.data ∧
      (parseOrigin "a:b:c").1.data ++ ':' :: (parseOrigin "a:b:c").2.data =
        "a:b:c".data) :=
  ⟨c4_origin_resolution.2.1 "plain" (by decide),
   c4_origin_resolution.2.2 "a:b:c" (by decide)⟩

/-- Appending a draft with non-whitespace content really changes the
long-term memory file. -/
theorem append_long_term_changes (mem : Option String) (content : String)
    (h : pyStrip content ≠ "") : append_long_term mem content ≠ mem := by
  unfold append_long_term
  simp only [if_neg h]
  rcases mem with _ | s
  · simp
  · intro h2
    have h3 := Option.some.inj h2
    have h4 := congrArg String.length h3
    have l1 : ("\n\n---\n\n" : String).length = 7 := rfl
    have l2 : ("\n" : String).length = 1 := rfl
    simp only [ensureLongTerm, Option.getD_some, String.length_append,
      l1, l2] at h4
    omega

/-- C5: in state DRAFTING, a confirm or request-save trigger appends the
stored draft to long-term memory, clears both metadata keys and replies
with the success text when the draft is non-empty; with no stored draft it
replies that no draft exists and performs no storage write, so the confirm
transition writes storage at most once per draft. -/
theorem c5_confirm_transition (maxIter : Nat) (p : Nat → LLMResponse)
    (sess : Session) (mem : Option String) (msg : InboundMessage)
    (hA : awaitingFlag sess = true)
    (hC : (is_confirm_save (normalizedText msg.content) ||
      is_save_memory (normalizedText msg.content)) = true) :
    (pyStrip (sess.memory_draft.getD "") ≠ "" →
      process_message maxIter p sess mem msg =
        { session := { sess with awaiting_memory_confirm := none,
                                 memory_draft := none },
          memory := append_long_term mem (pyStrip (sess.memory_draft.getD "")),
          chats := 0,
          out := some ⟨msg.channel, msg.chat_id, savedReplyText⟩ } ∧
      (process_message maxIter p sess mem msg).memory ≠ mem) ∧
    (pyStrip (sess.memory_draft.getD "") = "" →
      process_message maxIter p sess mem msg =
        { session := { sess with awaiting_memory_confirm := none },
          memory := mem, chats := 0,
          out := some ⟨msg.channel, msg.chat_id, noDraftReplyText⟩ }) := by
  have hNC := confirm_or_save_not_cancel _ hC
  constructor
  · intro hd
    constructor
    · simp [process_message, hA, hC, hNC, hd]
    · simp only [process_message, hA, hC, hNC]
      simp only [Bool.true_and, Bool.and_false, Bool.false_and,
        Bool.false_eq_true, if_false, if_true, if_neg hd]
      exact append_long_term_changes mem _ (by
        have hw := pyStrip_nonws_witness _ hd
        exact pyStrip_ne_empty_of_nonws _ hw)
  · intro hd
    simp [process_message, hA, hC, hNC, hd]

/-- C5 witness: a concrete confirm with a stored draft writes the memory
file once, and a concrete confirm without a draft replies that no draft
exists and leaves the file unchanged. -/
theorem c5_witness :
    (process_message 20 (fun _ => ⟨some "x", []⟩)
        ⟨[], some true, some "черновик"⟩ none
        ⟨"telegram", "u", "1", "сохранить"⟩ =
      { session := ⟨[], none, none⟩,
        memory := append_long_term none "черновик", chats := 0,
        out := some ⟨"telegram", "1", savedReplyText⟩ } ∧
      (process_message 20 (fun _ => ⟨some "x", []⟩)
        ⟨[], some true, some "черновик"⟩ none
        ⟨"telegram", "u", "1", "сохранить"⟩).memory ≠ none) ∧
    process_message 20 (fun _ => ⟨some "x", []⟩)
        ⟨[], some true, none⟩ (some "file")
        ⟨"telegram", "u", "1", "save"⟩ =
      { session := ⟨[], none, none⟩, memory := some "file", chats := 0,
        out := some ⟨"telegram", "1", noDraftReplyText⟩ } := by
  refine ⟨?_, ?_⟩
  · have h := (c5_confirm_transition 20 (fun _ => ⟨some "x", []⟩)
      ⟨[], some true, some "черновик"⟩ none
      ⟨"telegram", "u", "1", "сохранить"⟩ (by decide) (by decide)).1
      (by decide)
    exact h
  · have h := (c5_confirm_transition 20 (fun _ => ⟨some "x", []⟩)
      ⟨[], some true, none⟩ (some "file")
      ⟨"telegram", "u", "1", "save"⟩ (by decide) (by decide)).2
      (by decide)
    exact h

/-- C6, counterexample: in state DRAFTING an input with empty trimmed text
is not a no-op — the turn falls through to the tool-calling loop, makes a
model invocation and appends to history. -/
theorem c6_counterexample :
    (process_message 20 (fun _ => ⟨some "ok", []⟩)
        ⟨[], some true, some "d"⟩ none
        ⟨"telegram", "u", "1", ""⟩).chats ≠ 0 ∧
    (process_message 20 (fun _ => ⟨some "ok", []⟩)
        ⟨[], some true, some "d"⟩ none
        ⟨"telegram", "u", "1", ""⟩).session.messages ≠
      (⟨[], some true, some "d"⟩ : Session).messages := by
  decide

/-- C6, amended: in state DRAFTING, an input whose trimmed text is empty
leaves the awaiting-confirm flag and the draft unchanged (no transition of
the state machine), but it does not short-circuit the turn: processing
falls through to the normal tool-calling loop, so the history grows by the
usual two entries and, when max_iterations is at least 1, at least one
model-backend invocation occurs. -/
theorem c6_drafting_empty_input (maxIter : Nat) (p : Nat → LLMResponse)
    (sess : Session) (mem : Option String) (msg : InboundMessage)
    (hA : awaitingFlag sess = true)
    (hE : pyStrip msg.content = "") :
    (process_message maxIter p sess mem msg).session.awaiting_memory_confirm =
      sess.awaiting_memory_confirm ∧
    (process_message maxIter p sess mem msg).session.memory_draft =
      sess.memory_draft ∧
    (process_message maxIter p sess mem msg).memory = mem ∧
    (process_message maxIter p sess mem msg).session.messages =
      sess.messages ++ [⟨"user", msg.content⟩,
        ⟨"assistant", (runIter p 0 maxIter).2.getD agentFallbackText⟩] ∧
    (1 ≤ maxIter → 1 ≤ (process_message maxIter p sess mem msg).chats) := by
  have hn : normalizedText msg.content = "" := by
    rw [normalizedText, hE]
    rfl
  have hshape := process_message_loop_shape maxIter p sess mem msg
    (by rw [hn]; simp [is_cancel_memory])
    (by rw [hn]; simp [is_confirm_save, is_save_memory])
    (by rw [hE]; simp)
    (by rw [hn]; simp [is_save_memory])
  rw [hshape]
  refine ⟨rfl, rfl, rfl, rfl, ?_⟩
  intro hpos
  obtain ⟨n, rfl⟩ : ∃ n, maxIter = n + 1 := ⟨maxIter - 1, by omega⟩
  exact runIter_fst_pos p n 0

/-- C6 witness at a concrete drafting session and empty input. -/
theorem c6_witness :
    (process_message 20 (fun _ => ⟨some "ok", []⟩)
        ⟨[], some true, some "d"⟩ none
        ⟨"telegram", "u", "1", "  "⟩).session.awaiting_memory_confirm =
      some true ∧
    (process_message 20 (fun _ => ⟨some "ok", []⟩)
        ⟨[], some true, some "d"⟩ none
        ⟨"telegram", "u", "1", "  "⟩).session.memory_draft = some "d" ∧
    1 ≤ (process_message 20 (fun _ => ⟨some "ok", []⟩)
        ⟨[], some true, some "d"⟩ none
        ⟨"telegram", "u", "1", "  "⟩).chats := by
  have h := c6_drafting_empty_input 20 (fun _ => ⟨some "ok", []⟩)
    ⟨[], some true, some "d"⟩ none ⟨"telegram", "u", "1", "  "⟩
    (by decide) (by decide)
  exact ⟨h.1, h.2.1, h.2.2.2.2 (by decide)⟩

/-- C7: a request-save trigger with no draft in flight and a history whose
conversational turns all strip to empty text replies that there is nothing
to save, makes no model-backend invocation, and changes neither the
session nor the memory file. -/
theorem c7_empty_transcript (maxIter : Nat) (p : Nat → LLMResponse)
    (sess : Session) (mem : Option String) (msg : InboundMessage)
    (hA : awaitingFlag sess = false)
    (hS : is_save_memory (normalizedText msg.content) = true)
    (hRoles : ∀ m ∈ sess.messages, m.role = "user" ∨ m.role = "assistant")
    (hEmpty : ∀ m ∈ sess.messages,
      (m.role = "user" ∨ m.role = "assistant") → pyStrip m.content = "") :
    process_message maxIter p sess mem msg =
      { session := sess, memory := mem, chats := 0,
        out := some ⟨msg.channel, msg.chat_id, nothingToSaveText⟩ } := by
  have hlines : transcriptLines sess.messages = [] :=
    transcriptLines_nil _ (fun m hm => hEmpty m hm (hRoles m hm))
  have hint : pyStrip (String.intercalate "\n" (transcriptLines sess.messages)) = "" := by
    rw [hlines]
    rfl
  simp [process_message, hA, hS, hint]

/-- C7 witness at a concrete empty session. -/
theorem c7_witness :
    process_message 20 (fun _ => ⟨some "x", []⟩) ⟨[], none, none⟩ none
        ⟨"telegram", "u", "1", "save to memory"⟩ =
      { session := ⟨[], none, none⟩, memory := none, chats := 0,
        out := some ⟨"telegram", "1", nothingToSaveText⟩ } :=
  c7_empty_transcript 20 _ _ _ _ (by decide) (by decide)
    (by intro m hm; simp at hm) (by intro m hm; simp at hm)

/-- C8: for a message on the reserved system channel, the reply is
addressed to the resolved origin channel and origin chat id, the committed
session is the one keyed by the origin address (its history extended by the
system-tagged user entry and the final answer), and no other session
changes. -/
theorem c8_system_uses_origin_session (maxIter : Nat) (p : Nat → LLMResponse)
    (store : String → Session) (mem : Option String) (msg : InboundMessage) :
    ∃ final,
      (process_system_message maxIter p store mem msg).out =
        some ⟨(parseOrigin msg.chat_id).1, (parseOrigin msg.chat_id).2,
          final⟩ ∧
      ((process_system_message maxIter p store mem msg).store
          (originKey msg)).messages =
        (store (originKey msg)).messages ++
          [⟨"user", "[System: " ++ msg.sender_id ++ "] " ++ msg.content⟩,
           ⟨"assistant", final⟩] ∧
      ∀ k, k ≠ originKey msg →
        (process_system_message maxIter p store mem msg).store k = store k := by
  refine ⟨(runIter p 0 maxIter).2.getD systemFallbackText, ?_, ?_, ?_⟩
  · rfl
  · simp [process_system_message, process_system_session]
  · intro k hk
    simp [process_system_message, hk]

/-- C8 witness: a concrete system message addressed back to telegram chat
42 commits to the telegram:42 session and leaves another key untouched. -/
theorem c8_witness :
    ∃ final,
      (process_system_message 1 (fun _ => ⟨some "done", []⟩)
          (fun _ => ⟨[], none, none⟩) none
          ⟨"system", "subagent", "telegram:42", "result"⟩).out =
        some ⟨(parseOrigin "telegram:42").1, (parseOrigin "telegram:42").2,
          final⟩ ∧
      ((process_system_message 1 (fun _ => ⟨some "done", []⟩)
          (fun _ => ⟨[], none, none⟩) none
          ⟨"system", "subagent", "telegram:42", "result"⟩).store
          (originKey ⟨"system", "subagent", "telegram:42", "result"⟩)).messages =
        ((fun (_ : String) => (⟨[], none, none⟩ : Session))
            (originKey ⟨"system", "subagent", "telegram:42", "result"⟩)).messages ++
          [⟨"user", "[System: " ++ "subagent" ++ "] " ++ "result"⟩,
           ⟨"assistant", final⟩] ∧
      ∀ k, k ≠ originKey ⟨"system", "subagent", "telegram:42", "result"⟩ →
        (process_system_message 1 (fun _ => ⟨some "done", []⟩)
            (fun _ => ⟨[], none, none⟩) none
            ⟨"system", "subagent", "telegram:42", "result"⟩).store k =
          (fun (_ : String) => (⟨[], none, none⟩ : Session)) k :=
  c8_system_uses_origin_session 1 _ _ _ _

/-- Metadata invariant maintained by the turn processor, strengthened so it
is inductive: either both keys are absent, or the flag is the stored value
True and the draft holds a string containing a non-whitespace character. -/
def MetadataInv (sess : Session) : Prop :=
  (sess.awaiting_memory_confirm = none ∧ sess.memory_draft = none) ∨
  (sess.awaiting_memory_confirm = some true ∧
    ∃ t, sess.memory_draft = some t ∧ ∃ c ∈ t.data, isPyWhitespace c = false)

/-- Sessions reachable through the turn processor: a freshly created session
(empty history, no metadata), then any number of user-message or
system-message turns. -/
inductive ReachableSession : Session → Prop
  | init : ReachableSession ⟨[], none, none⟩
  | stepUser (maxIter : Nat) (p : Nat → LLMResponse) (mem : Option String)
      (msg : InboundMessage) {s : Session} : ReachableSession s →
      ReachableSession (process_message maxIter p s mem msg).session
  | stepSystem (maxIter : Nat) (p : Nat → LLMResponse) (mem : Option String)
      (msg : InboundMessage) {s : Session} : ReachableSession s →
      ReachableSession (process_system_session maxIter p s mem msg).session

/-- Every branch of _process_message preserves the strengthened metadata
invariant. -/
theorem metadataInv_preserved (maxIter : Nat) (p : Nat → LLMResponse)
    (sess : Session) (mem : Option String) (msg : InboundMessage)
    (h : MetadataInv sess) :
    MetadataInv (process_message maxIter p sess mem msg).session := by
  simp only [process_message]
  split_ifs with hc1 hc2 hd hc3 hc4 ht hdr
  · left
    exact ⟨rfl, rfl⟩
  · exfalso
    simp only [Bool.and_eq_true] at hc2
    have hAw : awaitingFlag sess = true := hc2.1
    rcases h with ⟨h1, _⟩ | ⟨h1, t, h2, hw⟩
    · rw [awaitingFlag, h1] at hAw
      simp at hAw
    · rw [h2] at hd
      simp only [Option.getD_some] at hd
      exact pyStrip_ne_empty_of_nonws t hw hd
  · left
    exact ⟨rfl, rfl⟩
  · simp only [Bool.and_eq_true] at hc3
    have hAw : awaitingFlag sess = true := hc3.1.1
    rcases h with ⟨h1, _⟩ | ⟨h1, t, h2, hw⟩
    · rw [awaitingFlag, h1] at hAw
      simp at hAw
    · right
      refine ⟨h1, pyStrip msg.content, rfl, ?_⟩
      have hne : pyStrip msg.content ≠ "" := by
        have h4 := hc3.2
        simpa using h4
      exact pyStrip_nonws_witness _ hne
  · exact h
  · right
    refine ⟨rfl, emptyDraftText, rfl, ?_⟩
    decide
  · right
    exact ⟨rfl, pyStrip ((p 0).content.getD ""), rfl,
      pyStrip_nonws_witness _ hdr⟩
  · exact h

/-- The system-message path never touches the metadata keys, so it also
preserves the invariant. -/
theorem metadataInv_preserved_system (maxIter : Nat) (p : Nat → LLMResponse)
    (sess : Session) (mem : Option String) (msg : InboundMessage)
    (h : MetadataInv sess) :
    MetadataInv (process_system_session maxIter p sess mem msg).session := by
  simpa [MetadataInv, process_system_session] using h

/-- C9: in every session state reachable through the turn processor, the
awaiting-confirm flag and the draft are either both present or both
absent. -/
theorem c9_metadata_keys_paired :
    ∀ s, ReachableSession s →
      (s.awaiting_memory_confirm = none ∧ s.memory_draft = none) ∨
      (s.awaiting_memory_confirm.isSome ∧ s.memory_draft.isSome) := by
  have key : ∀ s, ReachableSession s → MetadataInv s := by
    intro s h
    induction h with
    | init => exact Or.inl ⟨rfl, rfl⟩
    | stepUser maxIter p mem msg _ ih =>
      exact metadataInv_preserved maxIter p _ mem msg ih
    | stepSystem maxIter p mem msg _ ih =>
      exact metadataInv_preserved_system maxIter p _ mem msg ih
  intro s h
  rcases key s h with ⟨h1, h2⟩ | ⟨h1, t, h2, _⟩
  · exact Or.inl ⟨h1, h2⟩
  · right
    rw [h1, h2]
    exact ⟨rfl, rfl⟩

/-- C9 witness: the invariant holds at a session reached by a concrete
draft-creating turn from a fresh session. -/
theorem c9_witness :
    ((process_message 20 (fun _ => ⟨some "резюме", []⟩)
        (process_message 20 (fun _ => ⟨some "резюме", []⟩)
          ⟨[], none, none⟩ none
          ⟨"telegram", "u", "1", "Привет"⟩).session none
        ⟨"telegram", "u", "1", "Сохранить в памяти"⟩).session.awaiting_memory_confirm =
          none ∧
      (process_message 20 (fun _ => ⟨some "резюме", []⟩)
        (process_message 20 (fun _ => ⟨some "резюме", []⟩)
          ⟨[], none, none⟩ none
          ⟨"telegram", "u", "1", "Привет"⟩).session none
        ⟨"telegram", "u", "1", "Сохранить в памяти"⟩).session.memory_draft =
          none) ∨
    ((process_message 20 (fun _ => ⟨some "резюме", []⟩)
        (process_message 20 (fun _ => ⟨some "резюме", []⟩)
          ⟨[], none, none⟩ none
          ⟨"telegram", "u", "1", "Привет"⟩).session none
        ⟨"telegram", "u", "1", "Сохранить в памяти"⟩).session.awaiting_memory_confirm.isSome ∧
      (process_message 20 (fun _ => ⟨some "резюме", []⟩)
        (process_message 20 (fun _ => ⟨some "резюме", []⟩)
          ⟨[], none, none⟩ none
          ⟨"telegram", "u", "1", "Привет"⟩).session none
        ⟨"telegram", "u", "1", "Сохранить в памяти"⟩).session.memory_draft.isSome) :=
  c9_metadata_keys_paired _
    (ReachableSession.stepUser 20 (fun _ => ⟨some "резюме", []⟩) none
      ⟨"telegram", "u", "1", "Сохранить в памяти"⟩
      (ReachableSession.stepUser 20 (fun _ => ⟨some "резюме", []⟩) none
        ⟨"telegram", "u", "1", "Привет"⟩ ReachableSession.init))

/-- Every branch of the non-system turn processor returns a reply addressed
to the inbound channel and chat id. -/
theorem process_message_out_shape (maxIter : Nat) (p : Nat → LLMResponse)
    (sess : Session) (mem : Option String) (msg : InboundMessage) :
    ∃ content, (process_message maxIter p sess mem msg).out =
      some ⟨msg.channel, msg.chat_id, content⟩ := by
  simp only [process_message]
  split_ifs <;> exact ⟨_, rfl⟩

/-- C10: processing an inbound message always returns exactly one outbound
message — never none — addressed to the originating channel and chat id,
or, for system-channel messages, to the resolved origin address. -/
theorem c10_always_one_reply (maxIter : Nat) (p : Nat → LLMResponse)
    (store : String → Session) (mem : Option String) (msg : InboundMessage) :
    ∃ content,
      (process_inbound maxIter p store mem msg).out =
        some ⟨if msg.channel = "system" then (parseOrigin msg.chat_id).1
                else msg.channel,
              if msg.channel = "system" then (parseOrigin msg.chat_id).2
                else msg.chat_id,
              content⟩ := by
  by_cases h : msg.channel = "system"
  · refine ⟨(runIter p 0 maxIter).2.getD systemFallbackText, ?_⟩
    simp [process_inbound, process_system_message, process_system_session, h]
  · obtain ⟨c, hc⟩ := process_message_out_shape maxIter p
      (store (sessionKeyOf msg)) mem msg
    refine ⟨c, ?_⟩
    simp [process_inbound, h, hc]

end Nanobot
